import Mathlib

/-
Shallow embedding of the email delivery pipeline of the
notification-microservices-platform repository: the job record
(src/email_service/models.py), the worker consumer loop
(src/email_service/worker.py), and the two publisher / topology modules
(src/email_service/queue.py, src/email_service/task_queue.py).
-/

namespace EmailService

/-- Status enumeration, from models.py EmailStatus. -/
inductive EmailStatus where
  | queued
  | processing
  | sent
  | failed
  | delivered
  | bounced
deriving DecidableEq, Repr

/-- Persisted job record, from models.py EmailMessage (the columns the worker
touches; timestamps modelled as Nat). -/
structure EmailMessage where
  id : String
  user_id : String
  to_email : String
  subject : String
  body : String
  status : EmailStatus
  retry_count : Nat
  error_message : Option String
  sent_at : Option Nat
  created_at : Nat
deriving DecidableEq, Repr

/-- Point lookup by primary key: db.query(EmailMessage).filter(id == email_id).first(). -/
def findJob : List EmailMessage → String → Option EmailMessage
  | [], _ => none
  | e :: rest, i => if e.id = i then some e else findJob rest i

/-- Committing a mutated record: every row with the record's id takes the new value. -/
def updateJob (db : List EmailMessage) (j : EmailMessage) : List EmailMessage :=
  db.map (fun e => if e.id = j.id then j else e)

/-- Outcome of breaker.call(send_email, ...): the transport succeeds, raises an
exception with a message, or the breaker is open and rejects without calling
the transport (pybreaker.CircuitBreakerError). -/
inductive TransportResult where
  | success
  | failure (msg : String)
  | circuitOpen
deriving DecidableEq, Repr

/-- Retry configuration of worker.py. -/
def MAX_RETRIES : Nat := 5

/-- Base of the exponential backoff in worker.py. -/
def BASE_DELAY : Nat := 2

/-- Observable outcome of one process_email call: the store afterwards, how many
transport invocations happened, the sequence of statuses committed for this job,
the time.sleep duration if any, and the re-published (email_id, retry_count)
payload if any. -/
structure ProcResult where
  db : List EmailMessage
  transportCalls : Nat
  statusTrace : List EmailStatus
  slept : Option Nat
  published : Option (String × Nat)
deriving DecidableEq, Repr

/-- worker.py process_email, translated line by line: missing job is a no-op;
a job already sent is skipped; otherwise commit processing, invoke the breaker,
and on success / circuit-open / failure commit sent / failed / (queued after a
backoff sleep and re-publish with retry_count + 1, or terminal failed when
retry_count has reached MAX_RETRIES). -/
def process_email (db : List EmailMessage) (email_id : String) (retry_count : Nat)
    (transport : TransportResult) (now : Nat) : ProcResult :=
  match findJob db email_id with
  | none =>
      { db := db, transportCalls := 0, statusTrace := [], slept := none, published := none }
  | some email =>
      if email.status = EmailStatus.sent then
        { db := db, transportCalls := 0, statusTrace := [], slept := none, published := none }
      else
        let email1 := { email with status := EmailStatus.processing }
        let db1 := updateJob db email1
        match transport with
        | TransportResult.success =>
            let email2 := { email1 with status := EmailStatus.sent, sent_at := some now }
            { db := updateJob db1 email2
              transportCalls := 1
              statusTrace := [EmailStatus.processing, EmailStatus.sent]
              slept := none
              published := none }
        | TransportResult.circuitOpen =>
            let email2 := { email1 with
                            status := EmailStatus.failed
                            error_message := some "Circuit breaker open" }
            { db := updateJob db1 email2
              transportCalls := 0
              statusTrace := [EmailStatus.processing, EmailStatus.failed]
              slept := none
              published := none }
        | TransportResult.failure msg =>
            if retry_count < MAX_RETRIES then
              let email2 := { email1 with status := EmailStatus.queued }
              { db := updateJob db1 email2
                transportCalls := 1
                statusTrace := [EmailStatus.processing, EmailStatus.queued]
                slept := some (BASE_DELAY ^ retry_count)
                published := some (email.id, retry_count + 1) }
            else
              let email2 := { email1 with
                              status := EmailStatus.failed
                              error_message := some msg }
              { db := updateJob db1 email2
                transportCalls := 1
                statusTrace := [EmailStatus.processing, EmailStatus.failed]
                slept := none
                published := none }

/-- Template object of an API-Gateway message, from the fields callback reads
(worker.py lines 100-125). -/
structure Template where
  name : Option String
  subject : Option String
  html_body : Option String
  body : Option String
  template_variables : List String
deriving DecidableEq, Repr

/-- API-Gateway message format: \x7bnotification_id, user_id, email, template, data\x7d. -/
structure GatewayMessage where
  notification_id : String
  user_id : String
  email : Option String
  template : Option Template
  data : List (String × String)
deriving DecidableEq, Repr

/-- A delivery as seen by worker.py callback: an internal retry message
(has email_id), an API-Gateway message (no email_id), or a body json.loads
throws on. -/
inductive CallbackMsg where
  | internal (email_id : String) (retry_count : Nat)
  | gateway (gm : GatewayMessage)
  | malformed
deriving DecidableEq, Repr

/-- What the consumer does with the delivery tag. -/
inductive AckAction where
  | ack
  | nackNoRequeue
  | nackRequeue
deriving DecidableEq, Repr

/-- notification_data.get(var_name, ""). -/
def lookupData (data : List (String × String)) (k : String) : String :=
  match data.find? (fun p => p.1 == k) with
  | some p => p.2
  | none => ""

/-- template.get("html_body") or template.get("body", "You have a new notification"):
a falsy html_body (absent or empty) falls back to the body field with default. -/
def bodyContent (t : Template) : String :=
  match t.html_body with
  | some s => if s = "" then (t.body.getD "You have a new notification") else s
  | none => t.body.getD "You have a new notification"

/-- The substitution loop: each \x7b\x7bvar\x7d\x7d placeholder is replaced by
str(notification_data.get(var, "")). -/
def substitute (vars : List String) (data : List (String × String)) (s : String) : String :=
  vars.foldl (fun acc v => acc.replace ("\x7b\x7b" ++ v ++ "\x7d\x7d") (lookupData data v)) s

/-- The EmailMessage record the callback creates for a valid gateway message
(worker.py lines 130-138): fresh uuid4 id, status queued, rendered subject and
body; retry_count takes its column default 0, notification_id is not stored. -/
def mkGatewayJob (gm : GatewayMessage) (tpl : Template) (freshId : String)
    (now : Nat) : EmailMessage :=
  let subject0 := tpl.subject.getD "Notification"
  let body0 := bodyContent tpl
  let doSub := !tpl.template_variables.isEmpty && !gm.data.isEmpty
  { id := freshId
    user_id := gm.user_id
    to_email := (gm.email.getD "")
    subject := if doSub then substitute tpl.template_variables gm.data subject0 else subject0
    body := if doSub then substitute tpl.template_variables gm.data body0 else body0
    status := EmailStatus.queued
    retry_count := 0
    error_message := none
    sent_at := none
    created_at := now }

/-- Observable outcome of one callback invocation. -/
structure CallbackResult where
  db : List EmailMessage
  action : AckAction
  transportCalls : Nat
  createdId : Option String
  slept : Option Nat
  published : Option (String × Nat)
deriving DecidableEq, Repr

/-- worker.py callback: a malformed body lands in the outer except handler which
acknowledges; an internal message is handed to process_email and then
acknowledged; a gateway message lacking email or template is acknowledged and
dropped, and a valid one creates a fresh record then runs process_email with
retry_count 0 before acknowledging. Every path ends in basic_ack. -/
def callback (db : List EmailMessage) (msg : CallbackMsg) (freshId : String)
    (now : Nat) (transport : TransportResult) : CallbackResult :=
  match msg with
  | CallbackMsg.malformed =>
      { db := db
        action := AckAction.ack
        transportCalls := 0
        createdId := none
        slept := none
        published := none }
  | CallbackMsg.internal email_id rc =>
      let r := process_email db email_id rc transport now
      { db := r.db
        action := AckAction.ack
        transportCalls := r.transportCalls
        createdId := none
        slept := r.slept
        published := r.published }
  | CallbackMsg.gateway gm =>
      match gm.email, gm.template with
      | some e, some tpl =>
          if e = "" then
            { db := db
              action := AckAction.ack
              transportCalls := 0
              createdId := none
              slept := none
              published := none }
          else
            let newJob := mkGatewayJob gm tpl freshId now
            let db1 := db ++ [newJob]
            let r := process_email db1 freshId 0 transport now
            { db := r.db
              action := AckAction.ack
              transportCalls := r.transportCalls
              createdId := some freshId
              slept := r.slept
              published := r.published }
      | _, _ =>
          { db := db
            action := AckAction.ack
            transportCalls := 0
            createdId := none
            slept := none
            published := none }

/-- Accumulated observables of a scenario run. -/
structure RunResult where
  db : List EmailMessage
  delays : List Nat
  transportCalls : Nat
  pubs : List (String × Nat)
deriving DecidableEq, Repr

/-- Scenario driver: deliver an internal message for the job, and whenever
process_email re-publishes, deliver the re-published message next, consuming
one prescribed transport outcome per attempt. Collects the backoff delays and
the re-published (email_id, retry_count) payloads in order. -/
def runJob (db : List EmailMessage) (i : String) (rc : Nat) (now : Nat) :
    List TransportResult → RunResult
  | [] => { db := db, delays := [], transportCalls := 0, pubs := [] }
  | t :: ts =>
      let r := process_email db i rc t now
      match r.published with
      | some p =>
          let rest := runJob r.db p.1 p.2 now ts
          { db := rest.db
            delays := r.slept.toList ++ rest.delays
            transportCalls := r.transportCalls + rest.transportCalls
            pubs := p :: rest.pubs }
      | none =>
          { db := r.db
            delays := r.slept.toList
            transportCalls := r.transportCalls
            pubs := [] }

/-- A convenient concrete job record. -/
def mkJob (i : String) (st : EmailStatus) : EmailMessage :=
  { id := i
    user_id := "u1"
    to_email := "a@example.com"
    subject := "Hi"
    body := "Hello"
    status := st
    retry_count := 0
    error_message := none
    sent_at := none
    created_at := 0 }

/-- Headers attached to a published message (queue.py sets request_id and
retry_count). -/
structure MessageHeaders where
  request_id : String
  retry_count : Nat
deriving DecidableEq, Repr

/-- A basic_publish call as the broker sees it. -/
structure PublishedMessage where
  exchange : String
  routing_key : String
  body : String
  delivery_mode : Nat
  headers : Option MessageHeaders
  priority : Option Nat
deriving DecidableEq, Repr

/-- task_queue.py publish_email_job: delivery_mode 2, no headers, no priority,
exchange notifications.direct with routing key QUEUE_NAME = "email.queue".
This is the publisher worker.py imports for its retry re-publish. -/
def task_queue_publish_email_job (payload : String) : PublishedMessage :=
  { exchange := "notifications.direct"
    routing_key := "email.queue"
    body := payload
    delivery_mode := 2
    headers := none
    priority := none }

/-- queue.py publish_email_job: delivery_mode 2, headers with request_id (or "")
and retry_count hardcoded to 0, caller-chosen priority, routing key "email". -/
def queue_publish_email_job (payload : String) (request_id : Option String)
    (priority : Nat) : PublishedMessage :=
  { exchange := "notifications.direct"
    routing_key := "email"
    body := payload
    delivery_mode := 2
    headers := some { request_id := request_id.getD "", retry_count := 0 }
    priority := some priority }

/-- A queue_declare call: name, durability and the dead-letter arguments when
given. -/
structure QueueDecl where
  queue : String
  durable : Bool
  dead_letter_exchange : Option String
  dead_letter_routing_key : Option String
deriving DecidableEq, Repr

/-- An exchange_declare call. -/
structure ExchangeDecl where
  exchange : String
  kind : String
  durable : Bool
deriving DecidableEq, Repr

/-- A queue_bind call. -/
structure Binding where
  exchange : String
  queue : String
  routing_key : String
deriving DecidableEq, Repr

/-- Broker objects one component declares. -/
structure Topology where
  exchanges : List ExchangeDecl
  queues : List QueueDecl
  bindings : List Binding
deriving DecidableEq, Repr

/-- queue.py setup_infrastructure: both exchanges, email.queue with dead-letter
arguments, failed.queue, and the two bindings. -/
def setup_infrastructure : Topology :=
  { exchanges := [{ exchange := "notifications.direct", kind := "direct", durable := true },
                  { exchange := "notifications.dlx", kind := "direct", durable := true }]
    queues := [{ queue := "email.queue"
                 durable := true
                 dead_letter_exchange := some "notifications.dlx"
                 dead_letter_routing_key := some "failed" },
               { queue := "failed.queue"
                 durable := true
                 dead_letter_exchange := none
                 dead_letter_routing_key := none }]
    bindings := [{ exchange := "notifications.direct", queue := "email.queue", routing_key := "email" },
                 { exchange := "notifications.dlx", queue := "failed.queue", routing_key := "failed" }] }

/-- task_queue.py setup_queue: exchange and email.queue with no dead-letter
arguments, bound with routing key "email". -/
def setup_queue : Topology :=
  { exchanges := [{ exchange := "notifications.direct", kind := "direct", durable := true }]
    queues := [{ queue := "email.queue"
                 durable := true
                 dead_letter_exchange := none
                 dead_letter_routing_key := none }]
    bindings := [{ exchange := "notifications.direct", queue := "email.queue", routing_key := "email" }] }

/-- worker.py start_worker's declarations (lines 172-178): exchange, email.queue
with no dead-letter arguments, bound with routing key "email". -/
def start_worker_topology : Topology :=
  { exchanges := [{ exchange := "notifications.direct", kind := "direct", durable := true }]
    queues := [{ queue := "email.queue"
                 durable := true
                 dead_letter_exchange := none
                 dead_letter_routing_key := none }]
    bindings := [{ exchange := "notifications.direct", queue := "email.queue", routing_key := "email" }] }

/-- A concrete gateway template for the witness. -/
def tplSample : Template :=
  { name := some "welcome"
    subject := some "Hi \x7b\x7bname\x7d\x7d"
    html_body := some "Hello \x7b\x7bname\x7d\x7d"
    body := none
    template_variables := ["name"] }

/-- A concrete API-Gateway message for the witness. -/
def gmSample : GatewayMessage :=
  { notification_id := "n1"
    user_id := "u1"
    email := some "a@example.com"
    template := some tplSample
    data := [("name", "Ada")] }

/-! Helper lemmas shared by the claim theorems. -/

/-- updateJob rewrites rows in place, so the id column is untouched. -/
theorem updateJob_map_id (db : List EmailMessage) (j : EmailMessage) :
    (updateJob db j).map EmailMessage.id = db.map EmailMessage.id := by
  induction db with
  | nil => rfl
  | cons a as ih =>
      simp only [updateJob, List.map] at ih ⊢
      by_cases h : a.id = j.id
      · simp [h, ih]
      · simp [h, ih]

/-- process_email only ever rewrites existing rows, so the id column is
untouched. -/
theorem process_email_map_id (db : List EmailMessage) (i : String) (rc now : Nat)
    (t : TransportResult) :
    (process_email db i rc t now).db.map EmailMessage.id = db.map EmailMessage.id := by
  unfold process_email
  cases hf : findJob db i with
  | none => rfl
  | some j =>
      by_cases hs : j.status = EmailStatus.sent
      · simp [hs]
      · cases t with
        | success => simp [hs, updateJob_map_id]
        | circuitOpen => simp [hs, updateJob_map_id]
        | failure m =>
            by_cases hr : rc < MAX_RETRIES <;> simp [hs, hr, updateJob_map_id]

/-- Appending a record whose id is fresh makes it the one findJob returns for
that id. -/
theorem findJob_append_fresh (db : List EmailMessage) (j : EmailMessage)
    (h : ∀ e ∈ db, e.id ≠ j.id) : findJob (db ++ [j]) j.id = some j := by
  induction db with
  | nil => simp [findJob]
  | cons a as ih =>
      have ha : a.id ≠ j.id := h a (by simp)
      simp only [List.cons_append, findJob]
      rw [if_neg ha]
      exact ih (fun e he => h e (by simp [he]))

/-- When the job is present, not already sent, and the breaker passes the call
through, exactly one transport invocation happens. -/
theorem process_email_transport_calls (db : List EmailMessage) (i : String)
    (j : EmailMessage) (rc now : Nat) (t : TransportResult)
    (hf : findJob db i = some j) (hs : j.status ≠ EmailStatus.sent)
    (ht : t ≠ TransportResult.circuitOpen) :
    (process_email db i rc t now).transportCalls = 1 := by
  unfold process_email
  rw [hf]
  cases t with
  | success => simp [hs]
  | circuitOpen => exact absurd rfl ht
  | failure m => by_cases hr : rc < MAX_RETRIES <;> simp [hs, hr]

/-! Claim theorems. -/

/-- C1 counterexample: the idempotency guard in process_email checks only
status sent, not delivered. Re-delivering a message for a job whose status is
delivered makes a transport call and mutates the record, falsifying the claim
that redelivery of a sent-or-delivered job makes no transport call and no
state mutation. -/
theorem C1_counterexample :
    (process_email [mkJob "j1" EmailStatus.delivered] "j1" 0
        TransportResult.success 5).transportCalls = 1 ∧
    (process_email [mkJob "j1" EmailStatus.delivered] "j1" 0
        TransportResult.success 5).db ≠ [mkJob "j1" EmailStatus.delivered] := by
  decide

/-- C1 amended: the guard holds for status sent only — re-delivering a message
whose job is already sent makes no transport call, performs no state mutation,
publishes nothing, sleeps nothing, and the callback acknowledges the message. -/
theorem C1_sent_guard (j : EmailMessage) (rc now : Nat) (t : TransportResult)
    (hs : j.status = EmailStatus.sent) :
    process_email [j] j.id rc t now =
      { db := [j]
        transportCalls := 0
        statusTrace := []
        slept := none
        published := none } ∧
    (callback [j] (CallbackMsg.internal j.id rc) "f" now t).action = AckAction.ack := by
  constructor
  · simp [process_email, findJob, hs]
  · rfl

/-- C1 witness: the sent guard at a concrete sent job. -/
theorem C1_sent_guard_witness :
    process_email [mkJob "s1" EmailStatus.sent] (mkJob "s1" EmailStatus.sent).id 0
        TransportResult.success 0 =
      { db := [mkJob "s1" EmailStatus.sent]
        transportCalls := 0
        statusTrace := []
        slept := none
        published := none } ∧
    (callback [mkJob "s1" EmailStatus.sent]
        (CallbackMsg.internal (mkJob "s1" EmailStatus.sent).id 0) "f" 0
        TransportResult.success).action = AckAction.ack :=
  C1_sent_guard (mkJob "s1" EmailStatus.sent) 0 0 TransportResult.success rfl

/-- C2 counterexample: with BASE_DELAY = 2 and MAX_RETRIES = 5 the backoff
delays of a job that fails every attempt are 2^0..2^4 = 1, 2, 4, 8, 16 seconds,
not 2, 4, 8, 16, 32 as claimed (the exponent starts at the current retry count
0, not 1). -/
theorem C2_counterexample :
    (runJob [mkJob "j1" EmailStatus.queued] "j1" 0 0
        (List.replicate 6 (TransportResult.failure "smtp down"))).delays
      = [1, 2, 4, 8, 16] ∧
    (runJob [mkJob "j1" EmailStatus.queued] "j1" 0 0
        (List.replicate 6 (TransportResult.failure "smtp down"))).delays
      ≠ [2, 4, 8, 16, 32] := by
  decide

/-- C2 amended: the delays are BASE_DELAY^n for the current retry count
n = 0..4, i.e. 1, 2, 4, 8, 16 seconds; each retry re-publishes with retry count
incremented (1..5) and sets the job back to queued, and after the sixth failed
attempt the job ends in terminal failed with six transport attempts in total. -/
theorem C2_amended :
    (runJob [mkJob "j1" EmailStatus.queued] "j1" 0 0
        (List.replicate 6 (TransportResult.failure "smtp down"))).delays
      = (List.range 5).map (fun n => BASE_DELAY ^ n) ∧
    (runJob [mkJob "j1" EmailStatus.queued] "j1" 0 0
        (List.replicate 6 (TransportResult.failure "smtp down"))).delays
      = [1, 2, 4, 8, 16] ∧
    (runJob [mkJob "j1" EmailStatus.queued] "j1" 0 0
        (List.replicate 6 (TransportResult.failure "smtp down"))).pubs
      = [("j1", 1), ("j1", 2), ("j1", 3), ("j1", 4), ("j1", 5)] ∧
    (findJob (process_email [mkJob "j1" EmailStatus.queued] "j1" 0
        (TransportResult.failure "smtp down") 0).db "j1").map EmailMessage.status
      = some EmailStatus.queued ∧
    (findJob (runJob [mkJob "j1" EmailStatus.queued] "j1" 0 0
        (List.replicate 6 (TransportResult.failure "smtp down"))).db "j1").map
        EmailMessage.status = some EmailStatus.failed ∧
    (runJob [mkJob "j1" EmailStatus.queued] "j1" 0 0
        (List.replicate 6 (TransportResult.failure "smtp down"))).transportCalls = 6 := by
  decide

/-- C3 counterexample: process_email never writes the persisted retry_count
column — the attempt count lives only in the re-published message. After two
transport failures and a success the job is sent but its persisted retry_count
is still 0, not 2 as claimed. -/
theorem C3_counterexample :
    (findJob (runJob [mkJob "j1" EmailStatus.queued] "j1" 0 0
        [TransportResult.failure "x", TransportResult.failure "x",
         TransportResult.success]).db "j1").map EmailMessage.status
      = some EmailStatus.sent ∧
    (findJob (runJob [mkJob "j1" EmailStatus.queued] "j1" 0 0
        [TransportResult.failure "x", TransportResult.failure "x",
         TransportResult.success]).db "j1").map EmailMessage.retry_count
      = some 0 ∧
    ¬ (findJob (runJob [mkJob "j1" EmailStatus.queued] "j1" 0 0
        [TransportResult.failure "x", TransportResult.failure "x",
         TransportResult.success]).db "j1").map EmailMessage.retry_count
      = some 2 := by
  decide

/-- C3 amended: the retry count carried in the delivery message is incremented
on each failed attempt (the two re-publishes carry 1 then 2) and never
decremented, but the persisted retry_count column is never written by the
worker; after two failures then a success the final persisted state is status
sent with retry_count still at its creation default 0, and three transport
attempts happened. -/
theorem C3_amended :
    (runJob [mkJob "j1" EmailStatus.queued] "j1" 0 0
        [TransportResult.failure "x", TransportResult.failure "x",
         TransportResult.success]).pubs = [("j1", 1), ("j1", 2)] ∧
    (runJob [mkJob "j1" EmailStatus.queued] "j1" 0 0
        [TransportResult.failure "x", TransportResult.failure "x",
         TransportResult.success]).transportCalls = 3 ∧
    (findJob (runJob [mkJob "j1" EmailStatus.queued] "j1" 0 0
        [TransportResult.failure "x", TransportResult.failure "x",
         TransportResult.success]).db "j1").map EmailMessage.status
      = some EmailStatus.sent ∧
    (findJob (runJob [mkJob "j1" EmailStatus.queued] "j1" 0 0
        [TransportResult.failure "x", TransportResult.failure "x",
         TransportResult.success]).db "j1").map EmailMessage.retry_count
      = some 0 := by
  decide

/-- C4 counterexample: when the retry budget is exhausted the worker sets the
job to failed with the error persisted, but the callback still acknowledges the
message — it never negatively acknowledges — so the message is removed from
the primary queue and never dead-letter routed, falsifying the claim that it is
nacked without requeue to reach failed.queue. -/
theorem C4_counterexample :
    (callback [mkJob "j1" EmailStatus.queued] (CallbackMsg.internal "j1" 5) "f" 0
        (TransportResult.failure "smtp down")).action = AckAction.ack ∧
    (callback [mkJob "j1" EmailStatus.queued] (CallbackMsg.internal "j1" 5) "f" 0
        (TransportResult.failure "smtp down")).action ≠ AckAction.nackNoRequeue ∧
    (findJob (callback [mkJob "j1" EmailStatus.queued] (CallbackMsg.internal "j1" 5)
        "f" 0 (TransportResult.failure "smtp down")).db "j1").map EmailMessage.status
      = some EmailStatus.failed ∧
    (findJob (callback [mkJob "j1" EmailStatus.queued] (CallbackMsg.internal "j1" 5)
        "f" 0 (TransportResult.failure "smtp down")).db "j1").map
        EmailMessage.error_message = some (some "smtp down") := by
  decide

/-- C4 amended: when a transport attempt fails with retry count at or above
MAX_RETRIES, the job is set to terminal failed with the final error message
persisted and nothing is re-published or slept, but the consumer acknowledges
the message (the callback has no negative-acknowledge path), so the message is
removed from the primary queue and is never routed to the dead-letter queue. -/
theorem C4_amended (j : EmailMessage) (m : String) (rc now : Nat)
    (hs : j.status ≠ EmailStatus.sent) (hrc : MAX_RETRIES ≤ rc) :
    (callback [j] (CallbackMsg.internal j.id rc) "f" now
        (TransportResult.failure m)).action = AckAction.ack ∧
    (callback [j] (CallbackMsg.internal j.id rc) "f" now
        (TransportResult.failure m)).published = none ∧
    (callback [j] (CallbackMsg.internal j.id rc) "f" now
        (TransportResult.failure m)).slept = none ∧
    (callback [j] (CallbackMsg.internal j.id rc) "f" now
        (TransportResult.failure m)).db =
      [{ j with status := EmailStatus.failed, error_message := some m }] := by
  have hlt : ¬ rc < MAX_RETRIES := Nat.not_lt.mpr hrc
  refine ⟨rfl, ?_, ?_, ?_⟩ <;>
    simp [callback, process_email, findJob, updateJob, hs, hlt]

/-- C4 witness: the amended behavior at a concrete exhausted job. -/
theorem C4_amended_witness :
    (callback [mkJob "j1" EmailStatus.queued]
        (CallbackMsg.internal (mkJob "j1" EmailStatus.queued).id 5) "f" 0
        (TransportResult.failure "boom")).action = AckAction.ack ∧
    (callback [mkJob "j1" EmailStatus.queued]
        (CallbackMsg.internal (mkJob "j1" EmailStatus.queued).id 5) "f" 0
        (TransportResult.failure "boom")).published = none ∧
    (callback [mkJob "j1" EmailStatus.queued]
        (CallbackMsg.internal (mkJob "j1" EmailStatus.queued).id 5) "f" 0
        (TransportResult.failure "boom")).slept = none ∧
    (callback [mkJob "j1" EmailStatus.queued]
        (CallbackMsg.internal (mkJob "j1" EmailStatus.queued).id 5) "f" 0
        (TransportResult.failure "boom")).db =
      [{ mkJob "j1" EmailStatus.queued with
         status := EmailStatus.failed
         error_message := some "boom" }] :=
  C4_amended (mkJob "j1" EmailStatus.queued) "boom" 5 0 (by decide) (by decide)

/-- C5: on a circuit-open rejection the worker sets the job to failed with the
distinguishing error message "Circuit breaker open", persists it, makes no
transport call, re-publishes nothing, sleeps nothing, leaves retry_count
untouched, and the callback acknowledges the message. -/
theorem C5_circuit_open (j : EmailMessage) (rc now : Nat)
    (hs : j.status ≠ EmailStatus.sent) :
    (callback [j] (CallbackMsg.internal j.id rc) "f" now
        TransportResult.circuitOpen).action = AckAction.ack ∧
    (callback [j] (CallbackMsg.internal j.id rc) "f" now
        TransportResult.circuitOpen).transportCalls = 0 ∧
    (callback [j] (CallbackMsg.internal j.id rc) "f" now
        TransportResult.circuitOpen).published = none ∧
    (callback [j] (CallbackMsg.internal j.id rc) "f" now
        TransportResult.circuitOpen).slept = none ∧
    (callback [j] (CallbackMsg.internal j.id rc) "f" now
        TransportResult.circuitOpen).db =
      [{ j with
         status := EmailStatus.failed
         error_message := some "Circuit breaker open" }] ∧
    (findJob (callback [j] (CallbackMsg.internal j.id rc) "f" now
        TransportResult.circuitOpen).db j.id).map EmailMessage.retry_count
      = some j.retry_count := by
  refine ⟨rfl, ?_, ?_, ?_, ?_, ?_⟩ <;>
    simp [callback, process_email, findJob, updateJob, hs]

/-- C5 witness: the circuit-open behavior at a concrete queued job. -/
theorem C5_circuit_open_witness :
    (callback [mkJob "j1" EmailStatus.queued]
        (CallbackMsg.internal (mkJob "j1" EmailStatus.queued).id 0) "f" 0
        TransportResult.circuitOpen).action = AckAction.ack ∧
    (callback [mkJob "j1" EmailStatus.queued]
        (CallbackMsg.internal (mkJob "j1" EmailStatus.queued).id 0) "f" 0
        TransportResult.circuitOpen).transportCalls = 0 ∧
    (callback [mkJob "j1" EmailStatus.queued]
        (CallbackMsg.internal (mkJob "j1" EmailStatus.queued).id 0) "f" 0
        TransportResult.circuitOpen).published = none ∧
    (callback [mkJob "j1" EmailStatus.queued]
        (CallbackMsg.internal (mkJob "j1" EmailStatus.queued).id 0) "f" 0
        TransportResult.circuitOpen).slept = none ∧
    (callback [mkJob "j1" EmailStatus.queued]
        (CallbackMsg.internal (mkJob "j1" EmailStatus.queued).id 0) "f" 0
        TransportResult.circuitOpen).db =
      [{ mkJob "j1" EmailStatus.queued with
         status := EmailStatus.failed
         error_message := some "Circuit breaker open" }] ∧
    (findJob (callback [mkJob "j1" EmailStatus.queued]
        (CallbackMsg.internal (mkJob "j1" EmailStatus.queued).id 0) "f" 0
        TransportResult.circuitOpen).db (mkJob "j1" EmailStatus.queued).id).map
        EmailMessage.retry_count = some (mkJob "j1" EmailStatus.queued).retry_count :=
  C5_circuit_open (mkJob "j1" EmailStatus.queued) 0 0 (by decide)

/-- C6: the worker's outer exception handler acknowledges a message whose body
cannot even be parsed, leaving the Job Store untouched — the message is
silently discarded on an unknown exception, which the specification forbids.
The theorem evaluates callback at the failing input: the store is unchanged and
the action is a plain acknowledge. -/
theorem C6_silent_ack (db : List EmailMessage) (freshId : String) (now : Nat)
    (t : TransportResult) :
    callback db CallbackMsg.malformed freshId now t =
      { db := db
        action := AckAction.ack
        transportCalls := 0
        createdId := none
        slept := none
        published := none } := rfl

/-- C7 counterexample: the publisher the worker uses for its retry re-publish
(task_queue.py publish_email_job) attaches no headers at all, and the other
publisher (queue.py publish_email_job) hardcodes the retry_count header to 0
whatever the job's retry count is — so the published message does not carry the
job's current retry count as metadata, falsifying the claim. -/
theorem C7_counterexample :
    (task_queue_publish_email_job "p").headers = none ∧
    (queue_publish_email_job "p" (some "req-1") 0).headers =
      some { request_id := "req-1", retry_count := 0 } := by
  decide

/-- C7 amended: every publish by either publisher is marked persistent
(delivery_mode 2); the task_queue publisher attaches no headers, and the
queue.py publisher attaches headers whose retry_count is the constant 0, not
the job's current retry count. -/
theorem C7_amended (payload : String) (req : Option String) (priority : Nat) :
    (task_queue_publish_email_job payload).delivery_mode = 2 ∧
    (task_queue_publish_email_job payload).headers = none ∧
    (queue_publish_email_job payload req priority).delivery_mode = 2 ∧
    ((queue_publish_email_job payload req priority).headers).map
        MessageHeaders.retry_count = some 0 := by
  refine ⟨rfl, rfl, rfl, rfl⟩

/-- C8 counterexample: the publisher in task_queue.py (the one the worker's
retry path uses) publishes to notifications.direct with routing key
"email.queue", not "email", and both task_queue.py setup_queue and the worker's
own declarations create email.queue without any dead-letter arguments — the
components do not agree on the claimed topology. -/
theorem C8_counterexample :
    (task_queue_publish_email_job "p").routing_key = "email.queue" ∧
    (task_queue_publish_email_job "p").routing_key ≠ "email" ∧
    start_worker_topology.queues =
      [{ queue := "email.queue"
         durable := true
         dead_letter_exchange := none
         dead_letter_routing_key := none }] := by
  decide

/-- C8 amended: queue.py alone implements the claimed topology — its
setup_infrastructure declares email.queue with dead-letter exchange
notifications.dlx and routing key failed and binds failed.queue to
notifications.dlx with key failed, and its publisher targets
(notifications.direct, "email"); the worker and task_queue bind email.queue to
notifications.direct with key "email" but declare it without dead-letter
arguments, and the task_queue publisher targets routing key "email.queue". -/
theorem C8_amended :
    ((queue_publish_email_job "p" none 0).exchange,
      (queue_publish_email_job "p" none 0).routing_key) = ("notifications.direct", "email") ∧
    setup_infrastructure.queues =
      [{ queue := "email.queue"
         durable := true
         dead_letter_exchange := some "notifications.dlx"
         dead_letter_routing_key := some "failed" },
       { queue := "failed.queue"
         durable := true
         dead_letter_exchange := none
         dead_letter_routing_key := none }] ∧
    setup_infrastructure.bindings =
      [{ exchange := "notifications.direct", queue := "email.queue", routing_key := "email" },
       { exchange := "notifications.dlx", queue := "failed.queue", routing_key := "failed" }] ∧
    start_worker_topology.bindings =
      [{ exchange := "notifications.direct", queue := "email.queue", routing_key := "email" }] ∧
    setup_queue.bindings =
      [{ exchange := "notifications.direct", queue := "email.queue", routing_key := "email" }] ∧
    start_worker_topology.queues = setup_queue.queues ∧
    (start_worker_topology.queues.map QueueDecl.dead_letter_exchange) = [none] ∧
    ((task_queue_publish_email_job "p").exchange,
      (task_queue_publish_email_job "p").routing_key) = ("notifications.direct", "email.queue") := by
  decide

/-- C9 counterexample: a job whose status is terminal-success delivered is
moved back to processing (and then to sent) by a later delivery, so consumer
transitions do leave a terminal state, falsifying the claim. -/
theorem C9_counterexample :
    (process_email [mkJob "j1" EmailStatus.delivered] "j1" 0
        TransportResult.success 7).statusTrace
      = [EmailStatus.processing, EmailStatus.sent] ∧
    (findJob (process_email [mkJob "j1" EmailStatus.delivered] "j1" 0
        TransportResult.success 7).db "j1").map EmailMessage.status
      = some EmailStatus.sent := by
  decide

/-- C9 amended: only status sent is guarded. Every processed job whose status
is not sent — including one already delivered, failed or bounced — is first
committed as processing and then committed as exactly one of sent, queued or
failed; transitions never skip processing, but they can leave the terminal
states delivered and failed. -/
theorem C9_amended (j : EmailMessage) (rc now : Nat) (t : TransportResult)
    (hs : j.status ≠ EmailStatus.sent) :
    ∃ f, (process_email [j] j.id rc t now).statusTrace = [EmailStatus.processing, f] ∧
      (f = EmailStatus.sent ∨ f = EmailStatus.queued ∨ f = EmailStatus.failed) := by
  cases t with
  | success =>
      refine ⟨EmailStatus.sent, ?_, Or.inl rfl⟩
      simp [process_email, findJob, hs]
  | circuitOpen =>
      refine ⟨EmailStatus.failed, ?_, Or.inr (Or.inr rfl)⟩
      simp [process_email, findJob, hs]
  | failure m =>
      by_cases hr : rc < MAX_RETRIES
      · refine ⟨EmailStatus.queued, ?_, Or.inr (Or.inl rfl)⟩
        simp [process_email, findJob, hs, hr]
      · refine ⟨EmailStatus.failed, ?_, Or.inr (Or.inr rfl)⟩
        simp [process_email, findJob, hs, hr]

/-- C9 witness: the amended state machine at a concrete queued job. -/
theorem C9_amended_witness :
    ∃ f, (process_email [mkJob "j1" EmailStatus.queued]
        (mkJob "j1" EmailStatus.queued).id 0 TransportResult.success 0).statusTrace
      = [EmailStatus.processing, f] ∧
      (f = EmailStatus.sent ∨ f = EmailStatus.queued ∨ f = EmailStatus.failed) :=
  C9_amended (mkJob "j1" EmailStatus.queued) 0 0 TransportResult.success (by decide)

/-- One delivery of a valid API-Gateway message: a record with the fresh id is
created and the store grows by exactly that id, a transport attempt happens
(when the breaker passes calls through), and the message is acknowledged —
regardless of what the store already contains, since the callback performs no
lookup before creating. -/
theorem callback_gateway_one (db : List EmailMessage) (nid uid e : String)
    (tpl : Template) (dt : List (String × String)) (f : String) (now : Nat)
    (t : TransportResult) (hne : e ≠ "") (hf : ∀ x ∈ db, x.id ≠ f)
    (ht : t ≠ TransportResult.circuitOpen) :
    (callback db (CallbackMsg.gateway ⟨nid, uid, some e, some tpl, dt⟩)
        f now t).createdId = some f ∧
    (callback db (CallbackMsg.gateway ⟨nid, uid, some e, some tpl, dt⟩)
        f now t).action = AckAction.ack ∧
    (callback db (CallbackMsg.gateway ⟨nid, uid, some e, some tpl, dt⟩)
        f now t).transportCalls = 1 ∧
    (callback db (CallbackMsg.gateway ⟨nid, uid, some e, some tpl, dt⟩)
        f now t).db.map EmailMessage.id = db.map EmailMessage.id ++ [f] := by
  have hfind : findJob
      (db ++ [mkGatewayJob ⟨nid, uid, some e, some tpl, dt⟩ tpl f now]) f
      = some (mkGatewayJob ⟨nid, uid, some e, some tpl, dt⟩ tpl f now) :=
    findJob_append_fresh db (mkGatewayJob ⟨nid, uid, some e, some tpl, dt⟩ tpl f now) hf
  have hstat : (mkGatewayJob ⟨nid, uid, some e, some tpl, dt⟩ tpl f now).status
      ≠ EmailStatus.sent := by
    simp [mkGatewayJob]
  have hcalls := process_email_transport_calls
    (db ++ [mkGatewayJob ⟨nid, uid, some e, some tpl, dt⟩ tpl f now]) f
    (mkGatewayJob ⟨nid, uid, some e, some tpl, dt⟩ tpl f now) 0 now t hfind hstat ht
  have hids := process_email_map_id
    (db ++ [mkGatewayJob ⟨nid, uid, some e, some tpl, dt⟩ tpl f now]) f 0 now t
  refine ⟨?_, ?_, ?_, ?_⟩
  · simp [callback, if_neg hne]
  · simp [callback, if_neg hne]
  · simp only [callback, if_neg hne]
    exact hcalls
  · simp only [callback, if_neg hne]
    rw [hids]
    simp [mkGatewayJob]

/-- C10: a delivery lacking an email_id field (API-Gateway format) creates a
brand-new job record under the freshly generated id — the record starts in
status queued, no lookup by request_id or notification_id precedes its creation
(the conclusion holds over every store contents), and delivery is attempted at
once. Two deliveries of the same such message with distinct fresh ids create
two distinct records and two transport attempts. -/
theorem C10_fresh_job_per_delivery (db : List EmailMessage) (nid uid e : String)
    (tpl : Template) (dt : List (String × String)) (f1 f2 : String) (now : Nat)
    (t1 t2 : TransportResult)
    (hne : e ≠ "")
    (hf1 : ∀ x ∈ db, x.id ≠ f1) (hf2 : ∀ x ∈ db, x.id ≠ f2) (h12 : f1 ≠ f2)
    (ht1 : t1 ≠ TransportResult.circuitOpen) (ht2 : t2 ≠ TransportResult.circuitOpen) :
    (mkGatewayJob ⟨nid, uid, some e, some tpl, dt⟩ tpl f1 now).status
      = EmailStatus.queued ∧
    (callback db (CallbackMsg.gateway ⟨nid, uid, some e, some tpl, dt⟩)
        f1 now t1).createdId = some f1 ∧
    (callback db (CallbackMsg.gateway ⟨nid, uid, some e, some tpl, dt⟩)
        f1 now t1).transportCalls = 1 ∧
    (callback (callback db (CallbackMsg.gateway ⟨nid, uid, some e, some tpl, dt⟩)
        f1 now t1).db (CallbackMsg.gateway ⟨nid, uid, some e, some tpl, dt⟩)
        f2 now t2).createdId = some f2 ∧
    (callback (callback db (CallbackMsg.gateway ⟨nid, uid, some e, some tpl, dt⟩)
        f1 now t1).db (CallbackMsg.gateway ⟨nid, uid, some e, some tpl, dt⟩)
        f2 now t2).transportCalls = 1 ∧
    (callback (callback db (CallbackMsg.gateway ⟨nid, uid, some e, some tpl, dt⟩)
        f1 now t1).db (CallbackMsg.gateway ⟨nid, uid, some e, some tpl, dt⟩)
        f2 now t2).db.map EmailMessage.id = db.map EmailMessage.id ++ [f1, f2] := by
  obtain ⟨h1c, h1a, h1t, h1ids⟩ :=
    callback_gateway_one db nid uid e tpl dt f1 now t1 hne hf1 ht1
  have hf2' : ∀ x ∈ (callback db
      (CallbackMsg.gateway ⟨nid, uid, some e, some tpl, dt⟩) f1 now t1).db,
      x.id ≠ f2 := by
    intro x hx
    have hmem : x.id ∈ (callback db
        (CallbackMsg.gateway ⟨nid, uid, some e, some tpl, dt⟩) f1 now t1).db.map
        EmailMessage.id := List.mem_map_of_mem EmailMessage.id hx
    rw [h1ids] at hmem
    rcases List.mem_append.mp hmem with hl | hr
    · rcases List.mem_map.mp hl with ⟨y, hy, hyx⟩
      exact hyx ▸ hf2 y hy
    · have hx1 : x.id = f1 := by simpa using hr
      rw [hx1]
      exact h12
  obtain ⟨h2c, h2a, h2t, h2ids⟩ :=
    callback_gateway_one _ nid uid e tpl dt f2 now t2 hne hf2' ht2
  refine ⟨rfl, h1c, h1t, h2c, h2t, ?_⟩
  rw [h2ids, h1ids]
  simp

/-- C10 witness: two deliveries of the concrete gateway message on an empty
store, with fresh ids "id1" and "id2" and a working transport. -/
theorem C10_fresh_job_per_delivery_witness :
    (mkGatewayJob gmSample tplSample "id1" 0).status = EmailStatus.queued ∧
    (callback [] (CallbackMsg.gateway gmSample) "id1" 0 TransportResult.success).createdId
      = some "id1" ∧
    (callback [] (CallbackMsg.gateway gmSample) "id1" 0
        TransportResult.success).transportCalls = 1 ∧
    (callback (callback [] (CallbackMsg.gateway gmSample) "id1" 0
        TransportResult.success).db (CallbackMsg.gateway gmSample) "id2" 0
        TransportResult.success).createdId = some "id2" ∧
    (callback (callback [] (CallbackMsg.gateway gmSample) "id1" 0
        TransportResult.success).db (CallbackMsg.gateway gmSample) "id2" 0
        TransportResult.success).transportCalls = 1 ∧
    (callback (callback [] (CallbackMsg.gateway gmSample) "id1" 0
        TransportResult.success).db (CallbackMsg.gateway gmSample) "id2" 0
        TransportResult.success).db.map EmailMessage.id
      = ([] : List EmailMessage).map EmailMessage.id ++ ["id1", "id2"] :=
  C10_fresh_job_per_delivery [] "n1" "u1" "a@example.com" tplSample
    [("name", "Ada")] "id1" "id2" 0 TransportResult.success TransportResult.success
    (by decide) (by simp) (by simp) (by decide) (by decide) (by decide)

end EmailService
